import Mathlib

/-!
Verification of the DinosaurEDA backend (`backend/server.js`, current draft,
lines 1-366) against its natural-language specification.

The relevant parts of the server are shallowly embedded below:

* the per-IP fixed-window rate limiter (`clients` map, lines 36-38 and 63-81)
  as a step function on an optional `RateRecord`;
* the `ws.on('message')` dispatcher (lines 61-101) as `handleMessage`,
  returning the updated rate record, the messages the dispatcher itself sends,
  and the job it starts (if any);
* the `runInSandbox` compile pipeline (lines 110-178) as a function from an
  environment describing the external process outcomes to a `JobResult`
  (ordered message trace, directory state, timer state);
* `getGeminiVerilog` (lines 230-268) including its markdown-fence stripping;
* `runDiagramGeneration` (lines 274-360) both literally (the `dockerArgs`
  array references the undefined identifier `DOCKAER_IMAGE`, so evaluating it
  throws a ReferenceError caught by the function's own catch block) and in a
  second definition with the image reference corrected, which follows the
  two-stage contract the spec describes as the intended behaviour.

Time is modelled in milliseconds.  The single-threaded event loop is modelled
by processing one inbound message (and the job it spawns) at a time; the
`setTimeout` eviction of a rate record is modelled lazily with the stored
eviction deadline, and `ws.send` on an open connection appends to the trace.
-/

namespace DinosaurEDA

/-! ### Rate limiter (server.js lines 36-38, 63-81) -/

/-- The value stored in the `clients` map for one IP: the request count of the
current window, together with the (absolute, ms) time at which the `setTimeout`
scheduled at record creation will delete the record. -/
structure RateRecord where
  count : Nat
  evictAt : Nat
deriving DecidableEq

/-- `RATE_LIMIT_WINDOW_MS = 1 * 60 * 1000` (server.js line 37). -/
def RATE_LIMIT_WINDOW_MS : Nat := 60000

/-- `MAX_REQUESTS_PER_WINDOW = 10` (server.js line 38). -/
def MAX_REQUESTS_PER_WINDOW : Nat := 10

/-- Rate-limit accounting for one inbound message at time `t` (server.js
lines 69-81).  `none` models the IP having no entry in `clients` (never seen,
or deleted by the eviction timer, which is modelled by the guard
`t < r.evictAt`).  A fresh record gets `count = 1` and an eviction deadline one
window from now; an existing live record has its count incremented.  The
message is admitted unless `count > MAX_REQUESTS_PER_WINDOW` afterwards. -/
def rlStep (rec : Option RateRecord) (t : Nat) : Option RateRecord × Bool :=
  let r' : RateRecord :=
    match rec with
    | none => ⟨1, t + RATE_LIMIT_WINDOW_MS⟩
    | some r =>
      if t < r.evictAt then ⟨r.count + 1, r.evictAt⟩
      else ⟨1, t + RATE_LIMIT_WINDOW_MS⟩
  (some r', ! decide (r'.count > MAX_REQUESTS_PER_WINDOW))

/-- Run the rate limiter over a list of message arrival times, collecting the
admission decision of each message. -/
def rlRun : Option RateRecord → List Nat → Option RateRecord × List Bool
  | rec, [] => (rec, [])
  | rec, t :: ts =>
    let s := rlStep rec t
    let r := rlRun s.1 ts
    (r.1, s.2 :: r.2)

/-! ### Messages sent to the client -/

/-- One client-visible message.  `terminalLog s` is
`ws.send(JSON.stringify({type:'terminalLog', message: s}))`; `heartbeat` is
the `sendTerminalLog(ws, "...working...\r\n")` emitted by the 2-second
interval timer (distinguished so properties about the liveness ping are
statable); the last two are the structured one-shot payloads. -/
inductive Msg where
  | terminalLog (message : String)
  | heartbeat
  | generationResult (code : List Char)
  | diagramResult (svgDataUri : String)
deriving DecidableEq

/-- JavaScript truthiness of an optional string field of the parsed message
(`undefined` and the empty string are falsy). -/
def truthy : Option String → Bool
  | none => false
  | some s => ! s.isEmpty

/-! ### The message dispatcher (server.js lines 61-101) -/

/-- Outcome of `JSON.parse` on the inbound message: either it throws (with
the error message used in the catch block), or it yields an object whose
`type`, `code` and `prompt` fields are as given (`none` = absent). -/
inductive Inbound where
  | malformed (errMessage : String)
  | parsed (type? : Option String) (code? : Option String) (prompt? : Option String)

/-- The job the dispatcher hands off to (`runInSandbox`, `getGeminiVerilog`,
`runDiagramGeneration`). -/
inductive JobCall where
  | compile (code : String)
  | generate (prompt : String)
  | generateDiagram (code : String)
deriving DecidableEq

/-- Result of handling one inbound message at the dispatcher level: the
updated rate record for the client's IP, the messages the dispatcher itself
sent, which job (if any) it started, and whether the connection is still
open afterwards (the handler never closes it). -/
structure HandleResult where
  record : Option RateRecord
  msgs : List Msg
  job : Option JobCall
  connOpen : Bool

def ipErrorText : String := "--- ERROR: Could not identify your IP. ---\r\n"

def rateLimitText : String := "--- ERROR: Too many requests. Please wait 1 minute. ---\r\n"

def parseErrorText (em : String) : String := "\r\n--- ERROR: " ++ em ++ " ---\r\n"

def tyCompile : String := "compile"

def tyGenerate : String := "generate"

def tyGenerateDiagram : String := "generateDiagram"

/-- The `ws.on('message')` handler (server.js lines 61-101) for one message
arriving at time `t` on a connection whose `ws.ip` is `ip`.  The rate-limit
accounting runs before `JSON.parse`; a failed parse lands in the catch block
which sends one error log; a well-parsed message is dispatched on its `type`
field and the truthiness of the required payload field, with no `else`
branch (unrecognized messages are dropped silently). -/
def handleMessage (rec : Option RateRecord) (t : Nat) (ip : Option String)
    (inb : Inbound) : HandleResult :=
  if truthy ip = false then
    ⟨rec, [Msg.terminalLog ipErrorText], none, true⟩
  else
    let s := rlStep rec t
    if s.2 = false then
      ⟨s.1, [Msg.terminalLog rateLimitText], none, true⟩
    else
      match inb with
      | .malformed em => ⟨s.1, [Msg.terminalLog (parseErrorText em)], none, true⟩
      | .parsed ty co pr =>
        if ty = some tyCompile ∧ truthy co = true then
          ⟨s.1, [], some (.compile (co.getD "")), true⟩
        else if ty = some tyGenerate ∧ truthy pr = true then
          ⟨s.1, [], some (.generate (pr.getD "")), true⟩
        else if ty = some tyGenerateDiagram ∧ truthy co = true then
          ⟨s.1, [], some (.generateDiagram (co.getD "")), true⟩
        else
          ⟨s.1, [], none, true⟩

/-! ### Rate-limiter lemmas -/

/-- Running the limiter over requests that all arrive before the record's
eviction deadline increments the count once per request and never touches the
deadline; the i-th request (0-based) is admitted iff the count it produces,
`c + i + 1`, is within the ceiling. -/
lemma rlRun_live (ts : List Nat) (c e : Nat) (h : ∀ x ∈ ts, x < e) :
    rlRun (some ⟨c, e⟩) ts =
      (some ⟨c + ts.length, e⟩,
       (List.range ts.length).map
         (fun i => ! decide (c + i + 1 > MAX_REQUESTS_PER_WINDOW))) := by
  induction ts generalizing c with
  | nil => simp [rlRun]
  | cons t ts ih =>
    have ht : t < e := h t (List.mem_cons_self t ts)
    have hrest : ∀ x ∈ ts, x < e := fun x hx => h x (List.mem_cons_of_mem t hx)
    have hstep : rlStep (some ⟨c, e⟩) t =
        (some ⟨c + 1, e⟩, ! decide (c + 1 > MAX_REQUESTS_PER_WINDOW)) := by
      simp [rlStep, ht]
    simp only [rlRun, hstep, ih (c + 1) hrest, List.length_cons]
    simp only [Prod.mk.injEq]
    refine ⟨?_, ?_⟩
    · simp only [Option.some.injEq, RateRecord.mk.injEq]
      exact ⟨by omega, trivial⟩
    · simp only [List.range_succ_eq_map, List.map_cons, List.map_map]
      refine congrArg₂ List.cons ?_ ?_
      · simp
      · refine List.map_congr_left ?_
        intro i _
        simp only [Function.comp_apply]
        have hiff : (c + 1 + i + 1 > MAX_REQUESTS_PER_WINDOW) ↔
            (c + (i + 1) + 1 > MAX_REQUESTS_PER_WINDOW) := by omega
        simp [hiff]

/-- Past the IP check, every branch of the message handler stores the record
produced by the rate-limit accounting, whatever the message contains. -/
lemma handleMessage_record (rec : Option RateRecord) (t : Nat)
    (ip : Option String) (inb : Inbound) (hip : truthy ip = true) :
    (handleMessage rec t ip inb).record = (rlStep rec t).1 := by
  simp only [handleMessage, hip]
  rw [if_neg (by simp)]
  split
  · rfl
  · cases inb with
    | malformed em => rfl
    | parsed ty co pr =>
      dsimp only
      split
      · rfl
      · split
        · rfl
        · split
          · rfl
          · rfl

/-! ### Claim C1 -/

/-- C1: For every client identity, the rate limiter admits the first request
of a window by creating a record with count 1 and scheduling eviction one
60-second window later; each subsequent request in that window increments the
count; after 10 admitted in-window requests the 11th in-window request is
rejected; and a request arriving at or after the eviction deadline is admitted
as the start of a fresh window. -/
theorem rate_limit_window_cycle (t0 t' : Nat) (ts : List Nat)
    (hlen : ts.length = 10)
    (hin : ∀ x ∈ ts, x < t0 + RATE_LIMIT_WINDOW_MS)
    (hafter : t0 + RATE_LIMIT_WINDOW_MS ≤ t') :
    rlStep none t0 = (some ⟨1, t0 + RATE_LIMIT_WINDOW_MS⟩, true) ∧
    (rlRun (some ⟨1, t0 + RATE_LIMIT_WINDOW_MS⟩) ts).2 =
      List.replicate 9 true ++ [false] ∧
    rlStep (rlRun (some ⟨1, t0 + RATE_LIMIT_WINDOW_MS⟩) ts).1 t' =
      (some ⟨1, t' + RATE_LIMIT_WINDOW_MS⟩, true) := by
  have hrun := rlRun_live ts 1 (t0 + RATE_LIMIT_WINDOW_MS) hin
  refine ⟨by simp [rlStep, MAX_REQUESTS_PER_WINDOW], ?_, ?_⟩
  · rw [hrun]
    simp only [hlen]
    decide
  · rw [hrun]
    show rlStep (some ⟨1 + ts.length, t0 + RATE_LIMIT_WINDOW_MS⟩) t' = _
    have hstale : ¬ t' < (⟨1 + ts.length, t0 + RATE_LIMIT_WINDOW_MS⟩ :
        RateRecord).evictAt := by
      show ¬ t' < t0 + RATE_LIMIT_WINDOW_MS
      omega
    simp [rlStep, hstale, MAX_REQUESTS_PER_WINDOW]

/-- Witness for C1 at a concrete window: first request at time 0, ten more
requests at times 1..10, then a request exactly at the eviction deadline. -/
theorem rate_limit_window_cycle_witness :
    rlStep none 0 = (some ⟨1, 0 + RATE_LIMIT_WINDOW_MS⟩, true) ∧
    (rlRun (some ⟨1, 0 + RATE_LIMIT_WINDOW_MS⟩)
        [1, 2, 3, 4, 5, 6, 7, 8, 9, 10]).2 =
      List.replicate 9 true ++ [false] ∧
    rlStep (rlRun (some ⟨1, 0 + RATE_LIMIT_WINDOW_MS⟩)
        [1, 2, 3, 4, 5, 6, 7, 8, 9, 10]).1 60000 =
      (some ⟨1, 60000 + RATE_LIMIT_WINDOW_MS⟩, true) :=
  rate_limit_window_cycle 0 60000 [1, 2, 3, 4, 5, 6, 7, 8, 9, 10]
    (by decide) (by decide) (by decide)

/-! ### Claim C9 -/

/-- C9: With a determined client identity, every inbound message — malformed,
unknown-kind, or rejected alike — runs the rate-limit accounting before
parsing: a live record's count is incremented with its eviction deadline left
unchanged (the timer is scheduled only at record creation), and a missing
record is created with count 1 and a deadline one window from now. -/
theorem every_message_counted_eviction_fixed
    (rec : Option RateRecord) (t : Nat) (ip : Option String) (inb : Inbound)
    (hip : truthy ip = true) :
    (∀ c e, rec = some ⟨c, e⟩ → t < e →
      (handleMessage rec t ip inb).record = some ⟨c + 1, e⟩) ∧
    (rec = none →
      (handleMessage rec t ip inb).record =
        some ⟨1, t + RATE_LIMIT_WINDOW_MS⟩) := by
  constructor
  · intro c e hrec hlive
    rw [handleMessage_record rec t ip inb hip, hrec]
    simp [rlStep, hlive]
  · intro hrec
    rw [handleMessage_record rec t ip inb hip, hrec]
    simp [rlStep]

/-- Witness for C9: a malformed message from a known IP with a live record
(count 3) increments the count to 4 without moving the deadline; the same
message with no record creates a fresh window record. -/
theorem every_message_counted_eviction_fixed_witness :
    (handleMessage (some ⟨3, 50⟩) 10 (some ("1.2.3.4"))
        (.malformed ("bad"))).record = some ⟨4, 50⟩ ∧
    (handleMessage none 10 (some ("1.2.3.4"))
        (.malformed ("bad"))).record = some ⟨1, 10 + RATE_LIMIT_WINDOW_MS⟩ :=
  ⟨(every_message_counted_eviction_fixed (some ⟨3, 50⟩) 10 (some ("1.2.3.4"))
      (.malformed ("bad")) (by decide)).1 3 50 rfl (by decide),
   (every_message_counted_eviction_fixed none 10 (some ("1.2.3.4"))
      (.malformed ("bad")) (by decide)).2 rfl⟩

/-- Evaluation of the handler on an admitted, well-parsed message: the
dispatch is exactly the if-chain on the declared type and payload truthiness. -/
lemma handleMessage_parsed (rec : Option RateRecord) (t : Nat)
    (ip : Option String) (ty co pr : Option String)
    (hip : truthy ip = true) (hadm : (rlStep rec t).2 = true) :
    handleMessage rec t ip (.parsed ty co pr) =
      if ty = some tyCompile ∧ truthy co = true then
        ⟨(rlStep rec t).1, [], some (.compile (co.getD "")), true⟩
      else if ty = some tyGenerate ∧ truthy pr = true then
        ⟨(rlStep rec t).1, [], some (.generate (pr.getD "")), true⟩
      else if ty = some tyGenerateDiagram ∧ truthy co = true then
        ⟨(rlStep rec t).1, [], some (.generateDiagram (co.getD "")), true⟩
      else ⟨(rlStep rec t).1, [], none, true⟩ := by
  simp only [handleMessage]
  rw [if_neg (by simp [hip]), if_neg (by simp [hadm])]

/-! ### Claim C6 -/

/-- C6: An inbound message that fails to parse produces exactly one error
message (the catch block's error log), leaves the connection open, and the
connection can still accept and process a following well-formed message
(here: a compile request, which is dispatched to its job). -/
theorem malformed_single_error_session_continues
    (rec : Option RateRecord) (t t2 : Nat) (ip : Option String)
    (em code : String)
    (hip : truthy ip = true)
    (h1 : (rlStep rec t).2 = true)
    (h2 : (rlStep (handleMessage rec t ip (.malformed em)).record t2).2 = true)
    (hcode : code.isEmpty = false) :
    (handleMessage rec t ip (.malformed em)).msgs =
      [Msg.terminalLog (parseErrorText em)] ∧
    (handleMessage rec t ip (.malformed em)).job = none ∧
    (handleMessage rec t ip (.malformed em)).connOpen = true ∧
    (handleMessage (handleMessage rec t ip (.malformed em)).record t2 ip
        (.parsed (some tyCompile) (some code) none)).job =
      some (.compile code) := by
  have hm : handleMessage rec t ip (.malformed em) =
      ⟨(rlStep rec t).1, [Msg.terminalLog (parseErrorText em)], none, true⟩ := by
    simp only [handleMessage]
    rw [if_neg (by simp [hip]), if_neg (by simp [h1])]
  refine ⟨by rw [hm], by rw [hm], by rw [hm], ?_⟩
  have hrec : (handleMessage rec t ip (.malformed em)).record =
      (rlStep rec t).1 := by rw [hm]
  rw [hrec] at h2 ⊢
  rw [handleMessage_parsed _ _ _ _ _ _ hip h2]
  rw [if_pos ⟨rfl, by simp [truthy, hcode]⟩]
  rfl

/-- Witness for C6: a malformed message from a fresh IP, followed by a valid
compile request. -/
theorem malformed_single_error_session_continues_witness :
    (handleMessage none 0 (some ("1.2.3.4")) (.malformed ("bad"))).msgs =
      [Msg.terminalLog (parseErrorText ("bad"))] ∧
    (handleMessage none 0 (some ("1.2.3.4")) (.malformed ("bad"))).job = none ∧
    (handleMessage none 0 (some ("1.2.3.4")) (.malformed ("bad"))).connOpen =
      true ∧
    (handleMessage
        (handleMessage none 0 (some ("1.2.3.4")) (.malformed ("bad"))).record
        1 (some ("1.2.3.4"))
        (.parsed (some tyCompile) (some ("module m; endmodule")) none)).job =
      some (.compile ("module m; endmodule")) :=
  malformed_single_error_session_continues none 0 1 (some ("1.2.3.4"))
    ("bad") ("module m; endmodule") (by decide) (by decide) (by decide)
    (by decide)

/-! ### Claim C8 -/

/-- C8: An admitted, well-parsed message whose `type` field is missing or not
one of compile / generate / generateDiagram is silently ignored: the handler
sends nothing and starts no job. -/
theorem unknown_kind_silently_ignored
    (rec : Option RateRecord) (t : Nat) (ip : Option String)
    (ty co pr : Option String)
    (hip : truthy ip = true)
    (hadm : (rlStep rec t).2 = true)
    (hty : ∀ s, ty = some s →
      s ≠ tyCompile ∧ s ≠ tyGenerate ∧ s ≠ tyGenerateDiagram) :
    (handleMessage rec t ip (.parsed ty co pr)).msgs = [] ∧
    (handleMessage rec t ip (.parsed ty co pr)).job = none := by
  have hc : ¬ (ty = some tyCompile ∧ truthy co = true) := by
    rintro ⟨h, -⟩
    exact (hty tyCompile h).1 rfl
  have hg : ¬ (ty = some tyGenerate ∧ truthy pr = true) := by
    rintro ⟨h, -⟩
    exact (hty tyGenerate h).2.1 rfl
  have hd : ¬ (ty = some tyGenerateDiagram ∧ truthy co = true) := by
    rintro ⟨h, -⟩
    exact (hty tyGenerateDiagram h).2.2 rfl
  rw [handleMessage_parsed rec t ip ty co pr hip hadm,
    if_neg hc, if_neg hg, if_neg hd]
  exact ⟨rfl, rfl⟩

/-- Witness for C8: an admitted message with an unrecognized type. -/
theorem unknown_kind_silently_ignored_witness :
    (handleMessage none 0 (some ("1.2.3.4"))
        (.parsed (some ("frobnicate")) none none)).msgs = [] ∧
    (handleMessage none 0 (some ("1.2.3.4"))
        (.parsed (some ("frobnicate")) none none)).job = none :=
  unknown_kind_silently_ignored none 0 (some ("1.2.3.4"))
    (some ("frobnicate")) none none (by decide) (by decide)
    (by
      intro s hs
      rw [Option.some.injEq] at hs
      subst hs
      exact ⟨by decide, by decide, by decide⟩)

/-! ### Claim C10 -/

/-- C10: An admitted, well-parsed message whose kind is recognized but whose
required payload field is absent or empty (compile / generateDiagram without
a truthy `code`, generate without a truthy `prompt`) is silently dropped: no
error message, no job. -/
theorem missing_payload_silently_dropped
    (rec : Option RateRecord) (t : Nat) (ip : Option String)
    (ty co pr : Option String)
    (hip : truthy ip = true)
    (hadm : (rlStep rec t).2 = true)
    (hshape : (ty = some tyCompile ∧ truthy co = false) ∨
      (ty = some tyGenerate ∧ truthy pr = false) ∨
      (ty = some tyGenerateDiagram ∧ truthy co = false)) :
    (handleMessage rec t ip (.parsed ty co pr)).msgs = [] ∧
    (handleMessage rec t ip (.parsed ty co pr)).job = none := by
  have hne1 : tyCompile ≠ tyGenerate := by decide
  have hne2 : tyCompile ≠ tyGenerateDiagram := by decide
  have hne3 : tyGenerate ≠ tyGenerateDiagram := by decide
  have hc : ¬ (ty = some tyCompile ∧ truthy co = true) := by
    rintro ⟨h, htr⟩
    rcases hshape with ⟨h', hf⟩ | ⟨h', hf⟩ | ⟨h', hf⟩
    · rw [htr] at hf
      exact Bool.noConfusion hf
    · rw [h] at h'
      exact hne1 (Option.some.injEq _ _ ▸ h')
    · rw [h] at h'
      exact hne2 (Option.some.injEq _ _ ▸ h')
  have hg : ¬ (ty = some tyGenerate ∧ truthy pr = true) := by
    rintro ⟨h, htr⟩
    rcases hshape with ⟨h', hf⟩ | ⟨h', hf⟩ | ⟨h', hf⟩
    · rw [h] at h'
      exact hne1 (Option.some.injEq _ _ ▸ h').symm
    · rw [htr] at hf
      exact Bool.noConfusion hf
    · rw [h] at h'
      exact hne3 (Option.some.injEq _ _ ▸ h')
  have hd : ¬ (ty = some tyGenerateDiagram ∧ truthy co = true) := by
    rintro ⟨h, htr⟩
    rcases hshape with ⟨h', hf⟩ | ⟨h', hf⟩ | ⟨h', hf⟩
    · rw [htr] at hf
      exact Bool.noConfusion hf
    · rw [h] at h'
      exact hne3 (Option.some.injEq _ _ ▸ h').symm
    · rw [htr] at hf
      exact Bool.noConfusion hf
  rw [handleMessage_parsed rec t ip ty co pr hip hadm,
    if_neg hc, if_neg hg, if_neg hd]
  exact ⟨rfl, rfl⟩

/-- Witness for C10: an admitted compile request whose `code` field is the
empty string. -/
theorem missing_payload_silently_dropped_witness :
    (handleMessage none 0 (some ("1.2.3.4"))
        (.parsed (some tyCompile) (some ("")) none)).msgs = [] ∧
    (handleMessage none 0 (some ("1.2.3.4"))
        (.parsed (some tyCompile) (some ("")) none)).job = none :=
  missing_payload_silently_dropped none 0 (some ("1.2.3.4"))
    (some tyCompile) (some ("")) none (by decide) (by decide)
    (Or.inl ⟨rfl, by decide⟩)

/-! ### ANSI codes and the exact message texts of the job pipelines
(server.js lines 20-24, 149-178, 184-268, 274-360) -/

def ANSI_BLUE : String := "\x1b[34m"

def ANSI_GREEN : String := "\x1b[32m"

def ANSI_RED : String := "\x1b[31m"

def ANSI_RESET : String := "\x1b[0m"

/-- Lines 152-156: the exit banner, green on exit code 0, red otherwise. -/
def compileDoneText (exitCode : Int) : String :=
  if exitCode = 0 then
    "\r\n" ++ ANSI_GREEN ++ "--- Compilation finished (exit code " ++
      toString exitCode ++ ") ---" ++ ANSI_RESET ++ "\r\n"
  else
    "\r\n" ++ ANSI_RED ++ "--- Compilation finished (exit code " ++
      toString exitCode ++ ") ---" ++ ANSI_RESET ++ "\r\n"

def fatalSpawnText (m : String) : String :=
  "\r\n" ++ ANSI_RED ++ "--- FATAL: Failed to start compiler: " ++ m ++
    " ---" ++ ANSI_RESET ++ "\r\n"

def fatalServerText (m : String) : String :=
  "\r\n" ++ ANSI_RED ++ "--- FATAL Server-side error: " ++ m ++ " ---" ++
    ANSI_RESET ++ "\r\n"

def geminiThinkingText : String := "\r\n--- 🤖 Gemini is thinking... ---\r\n"

def geminiHeaderText : String :=
  "\r\n" ++ ANSI_BLUE ++ "--- 🤖 Gemini\x27s Explanation ---" ++ ANSI_RESET ++
    "\r\n"

def geminiBodyText (text : String) : String := ANSI_BLUE ++ text ++ ANSI_RESET

def geminiFooterText : String :=
  "\r\n" ++ ANSI_BLUE ++ "--------------------------------" ++ ANSI_RESET ++
    "\r\n"

def geminiDescErrText : String :=
  "\r\n" ++ ANSI_BLUE ++ "--- 🤖 Gemini Error: Could not get explanation. ---" ++
    ANSI_RESET ++ "\r\n"

def genBannerText : String :=
  "\r\n" ++ ANSI_BLUE ++ "--- 🤖 Gemini is generating Verilog code... ---" ++
    ANSI_RESET ++ "\r\n"

def genSuccessText : String :=
  ANSI_BLUE ++ "--- 🤖 Verilog code generated successfully. ---" ++
    ANSI_RESET ++ "\r\n"

def genErrText : String :=
  "\r\n" ++ ANSI_BLUE ++ "--- 🤖 Gemini Error: Could not generate code. ---" ++
    ANSI_RESET ++ "\r\n"

def diagStage1Text : String :=
  "--- 📊 [1/3] Synthesizing Verilog to JSON netlist... ---\r\n"

def diagYosysFailText : String :=
  "\r\n" ++ ANSI_RED ++ "--- 📊 [ERROR] Yosys failed. Cannot generate diagram. ---" ++
    ANSI_RESET ++ "\r\n"

def diagStage1DoneText : String :=
  "\r\n" ++ ANSI_GREEN ++ "--- 📊 [1/3] Synthesis complete. ---" ++
    ANSI_RESET ++ "\r\n"

def diagStage2Text : String :=
  "--- 📊 [2/3] Rendering schematic with netlistsvg... ---\r\n"

def diagNetlistFailText (e : String) : String :=
  "\r\n" ++ ANSI_RED ++ "--- 📊 [ERROR] netlistsvg failed: " ++ e ++ " ---" ++
    ANSI_RESET ++ "\r\n"

def diagStage3Text : String := "--- 📊 [3/3] Sending SVG to browser... ---\r\n"

def diagNetlistSpawnText : String :=
  "\r\n" ++ ANSI_RED ++
    "--- 📊 [ERROR] Failed to run netlistsvg. Is it installed? (sudo npm install -g netlistsvg) ---" ++
    ANSI_RESET ++ "\r\n"

def diagYosysSpawnText : String :=
  "\r\n" ++ ANSI_RED ++ "--- 📊 [ERROR] Failed to start Yosys (Docker). ---" ++
    ANSI_RESET ++ "\r\n"

def diagFatalText (m : String) : String :=
  "\r\n" ++ ANSI_RED ++ "--- 📊 [FATAL] Diagram generation error: " ++ m ++
    " ---" ++ ANSI_RESET ++ "\r\n"

/-- The message of the ReferenceError thrown at line 297 when the `dockerArgs`
array literal reads the undefined identifier `DOCKAER_IMAGE`. -/
def dockaerText : String := "DOCKAER_IMAGE is not defined"

/-! ### Heartbeat timer and timestamped event merging -/

/-- The heartbeat pings the 2-second interval (lines 116-118) fires during a
phase lasting `d` milliseconds, provided the timer is still `active`: one ping
at each elapsed full period, timestamped `2000·(k+1)`; a ping racing the
phase-ending event at the same millisecond is ordered before it. -/
def heartbeatEvents (active : Bool) (d : Nat) : List (Nat × Msg) :=
  if active then
    (List.range (d / 2000)).map (fun k => (2000 * (k + 1), Msg.heartbeat))
  else []

/-- Merge two timestamp-ordered event lists into one ordered trace (the
single-threaded event loop delivers callbacks in time order; ties go to the
left list). -/
def mergeEv : List (Nat × Msg) → List (Nat × Msg) → List (Nat × Msg)
  | [], ys => ys
  | x :: xs, [] => x :: xs
  | x :: xs, y :: ys =>
    if x.1 ≤ y.1 then x :: mergeEv xs (y :: ys)
    else y :: mergeEv (x :: xs) ys
termination_by a b => a.length + b.length

/-! ### The compile job, `runInSandbox` (server.js lines 110-178) -/

/-- Externally determined events of one `runInSandbox` job: whether the job
body throws before the spawn (`fs.mkdir`/`fs.writeFile` rejecting, with the
error message and whether the directory already existed), whether
`spawn('docker', …)` fails to launch (the `'error'` event, with its time and
message), the timestamped stdout/stderr chunks, the time and exit code of the
`'close'` event, the outcome and duration of the awaited Gemini explanation
call, and whether `fs.rm` succeeds. -/
structure CompileEnv where
  setupThrow : Option String
  dirCreatedBeforeThrow : Bool
  spawnFail : Option String
  errTime : Nat
  chunks : List (Nat × String)
  closeTime : Nat
  exitCode : Int
  geminiOk : Bool
  geminiText : String
  geminiTime : Nat
  rmOk : Bool

/-- The observable outcome of one job: the ordered trace of messages sent to
the client, whether the scratch directory was created, whether it still
exists after the job's last message, whether no interval timer is left
running, and whether the first / second external process was launched. -/
structure JobResult where
  msgs : List Msg
  dirCreated : Bool
  dirExistsAfter : Bool
  timerCancelled : Bool
  procLaunched : Bool
  proc2Launched : Bool
deriving DecidableEq

/-- Message trace of `getGeminiDescription` (lines 184-225): the thinking
banner, then the awaited Gemini call during which a still-`active` heartbeat
timer would keep firing (the close handler cleared it first, so the caller
passes `false`), then either the three-part explanation block or the single
error banner. -/
def getGeminiDescription (timerActive : Bool) (env : CompileEnv) : List Msg :=
  Msg.terminalLog geminiThinkingText ::
    ((heartbeatEvents timerActive env.geminiTime).map Prod.snd ++
      (if env.geminiOk then
        [Msg.terminalLog geminiHeaderText,
         Msg.terminalLog (geminiBodyText env.geminiText),
         Msg.terminalLog geminiFooterText]
      else [Msg.terminalLog geminiDescErrText]))

/-- The messages emitted while the compiler process runs (lines 139-146 plus
the interval of lines 116-118): stdout/stderr chunks relayed as terminal
logs, merged by timestamp with the heartbeat pings of the active timer. -/
def runningMsgs (env : CompileEnv) : List Msg :=
  (mergeEv (env.chunks.map (fun p => (p.1, Msg.terminalLog p.2)))
    (heartbeatEvents true env.closeTime)).map Prod.snd

/-- The messages of the `'close'` handler (lines 149-162): `clearInterval`
runs first, then the coloured exit banner, then the awaited Gemini
explanation (with the timer no longer active). -/
def closeMsgs (env : CompileEnv) : List Msg :=
  Msg.terminalLog (compileDoneText env.exitCode) ::
    getGeminiDescription false env

/-- The compile pipeline `runInSandbox` (lines 110-178).  Three exit paths:
the catch block (body threw before the spawn: clearInterval, FATAL banner,
awaited `fs.rm` guarded by `if (tempDir)`); the `'error'` handler (spawn
failed: heartbeats until the event, clearInterval, FATAL banner, `fs.rm`);
and the `'close'` handler (normal run: relayed output and heartbeats, then
the close messages, then `fs.rm`). -/
def runInSandbox (env : CompileEnv) : JobResult :=
  match env.setupThrow with
  | some m =>
    ⟨[Msg.terminalLog (fatalServerText m)],
     env.dirCreatedBeforeThrow,
     env.dirCreatedBeforeThrow && ! env.rmOk,
     true, false, false⟩
  | none =>
    match env.spawnFail with
    | some m =>
      ⟨(heartbeatEvents true env.errTime).map Prod.snd ++
        [Msg.terminalLog (fatalSpawnText m)],
       true, ! env.rmOk, true, false, false⟩
    | none =>
      ⟨runningMsgs env ++ closeMsgs env, true, ! env.rmOk, true, true, false⟩

/-! ### The generate job, `getGeminiVerilog` (server.js lines 230-268) -/

def fenceChars : List Char := ['`', '`', '`']

def verilogFenceChars : List Char :=
  ['`', '`', '`', 'v', 'e', 'r', 'i', 'l', 'o', 'g']

/-- Left-to-right global removal of every occurrence of "```verilog"
(`code.replace(/```verilog/g, "")`, line 256, first replace): at each
position, if the pattern matches here, drop it and continue after it,
otherwise keep the character. -/
def stripVerilogFences : List Char → List Char
  | [] => []
  | c :: rest =>
    if (c :: rest).take 10 = verilogFenceChars then
      stripVerilogFences ((c :: rest).drop 10)
    else c :: stripVerilogFences rest
termination_by l => l.length
decreasing_by
  · simp only [List.length_drop, List.length_cons]
    omega
  · simp

/-- Left-to-right global removal of every occurrence of three consecutive
backticks (`.replace(/```/g, "")`, line 256, second replace). -/
def stripFences : List Char → List Char
  | [] => []
  | c :: rest =>
    if (c :: rest).take 3 = fenceChars then stripFences ((c :: rest).drop 3)
    else c :: stripFences rest
termination_by l => l.length
decreasing_by
  · simp only [List.length_drop, List.length_cons]
    omega
  · simp

/-- The whitespace characters trimmed by JavaScript's `String.trim` that can
occur in this code path. -/
def isJsSpace (c : Char) : Bool :=
  (c == ' ') || (c == '\t') || (c == '\n') || (c == '\r')

/-- `.trim()` (line 256): drop whitespace from both ends. -/
def jsTrim (l : List Char) : List Char :=
  ((l.dropWhile isJsSpace).reverse.dropWhile isJsSpace).reverse

/-- Line 256 in full:
`code.replace(/```verilog/g, "").replace(/```/g, "").trim()`. -/
def cleanGeneratedCode (raw : List Char) : List Char :=
  jsTrim (stripFences (stripVerilogFences raw))

/-- Externally determined outcome of the Gemini generation call: `some raw`
is the text of the first candidate part, `none` means the awaited call threw
and the catch block runs. -/
structure GenEnv where
  geminiResult : Option (List Char)

/-- The generate pipeline `getGeminiVerilog` (lines 230-268): the generating
banner, then on success exactly one `generationResult` carrying the cleaned
code followed by the success banner, or on failure the single error banner. -/
def getGeminiVerilog (env : GenEnv) : List Msg :=
  Msg.terminalLog genBannerText ::
    (match env.geminiResult with
     | some raw =>
       [Msg.generationResult (cleanGeneratedCode raw),
        Msg.terminalLog genSuccessText]
     | none => [Msg.terminalLog genErrText])

/-! ### The diagram job, `runDiagramGeneration` (server.js lines 274-360) -/

/-- Externally determined events of the literal diagram job — only the setup
steps and `fs.rm` matter, because the function throws before any spawn. -/
structure DiagEnv where
  setupThrow : Option String
  dirCreatedBeforeThrow : Bool
  rmOk : Bool

/-- The literal `runDiagramGeneration` (lines 274-360).  After the scratch
directory is created and `design.v` written, evaluating the `dockerArgs`
array literal (line 297) reads the undefined identifier `DOCKAER_IMAGE` and
throws a ReferenceError, so control always reaches the catch block (lines
354-359): no process is ever spawned, no stage banner is sent (line 301 is
never reached), the FATAL banner is sent, and the scratch directory is
removed by the awaited `fs.rm`. -/
def runDiagramGeneration (env : DiagEnv) : JobResult :=
  match env.setupThrow with
  | some m =>
    ⟨[Msg.terminalLog (diagFatalText m)], env.dirCreatedBeforeThrow,
     env.dirCreatedBeforeThrow && ! env.rmOk, true, false, false⟩
  | none =>
    ⟨[Msg.terminalLog (diagFatalText dockaerText)], true, ! env.rmOk, true,
     false, false⟩

/-- Externally determined events of the two-stage diagram pipeline: the setup
steps, the yosys (Docker) spawn/output/exit, the netlistsvg spawn, stderr
accumulation and exit, the base64 SVG payload, and `fs.rm`. -/
structure DiagFixedEnv where
  setupThrow : Option String
  dirCreatedBeforeThrow : Bool
  yosysSpawnFail : Bool
  yosysChunks : List String
  yosysExit : Int
  netlistSpawnFail : Bool
  netlistStderr : String
  netlistExit : Int
  svgBase64 : String
  rmOk : Bool

/-- `runDiagramGeneration` with the undefined `DOCKAER_IMAGE` reference read
as the intended `DOCKER_IMAGE` (spec §9 directs implementers to treat the
two-stage contract, not the literal buggy reference, as the intended
behaviour of this path).  It mirrors the handlers of lines 300-359 path by
path: the stage-1 banner is sent before the spawn; a failed yosys spawn sends
the error banner and returns with no cleanup; a nonzero yosys exit (line
310-313) sends the failure banner and returns WITHOUT removing the scratch
directory and without launching netlistsvg; a zero exit proceeds to
netlistsvg, whose spawn-failure and nonzero-exit paths likewise return
without cleanup; only the success path sends `diagramResult` and then calls
`fs.rm`. -/
def runDiagramGenerationFixed (env : DiagFixedEnv) : JobResult :=
  match env.setupThrow with
  | some m =>
    ⟨[Msg.terminalLog (diagFatalText m)], env.dirCreatedBeforeThrow,
     env.dirCreatedBeforeThrow && ! env.rmOk, true, false, false⟩
  | none =>
    if env.yosysSpawnFail then
      ⟨[Msg.terminalLog diagStage1Text, Msg.terminalLog diagYosysSpawnText],
       true, true, true, false, false⟩
    else if env.yosysExit ≠ 0 then
      ⟨Msg.terminalLog diagStage1Text ::
        (env.yosysChunks.map Msg.terminalLog ++
          [Msg.terminalLog diagYosysFailText]),
       true, true, true, true, false⟩
    else if env.netlistSpawnFail then
      ⟨Msg.terminalLog diagStage1Text ::
        (env.yosysChunks.map Msg.terminalLog ++
          [Msg.terminalLog diagStage1DoneText, Msg.terminalLog diagStage2Text,
           Msg.terminalLog diagNetlistSpawnText]),
       true, true, true, true, false⟩
    else if env.netlistExit ≠ 0 then
      ⟨Msg.terminalLog diagStage1Text ::
        (env.yosysChunks.map Msg.terminalLog ++
          [Msg.terminalLog diagStage1DoneText, Msg.terminalLog diagStage2Text,
           Msg.terminalLog (diagNetlistFailText env.netlistStderr)]),
       true, true, true, true, true⟩
    else
      ⟨Msg.terminalLog diagStage1Text ::
        (env.yosysChunks.map Msg.terminalLog ++
          [Msg.terminalLog diagStage1DoneText, Msg.terminalLog diagStage2Text,
           Msg.terminalLog diagStage3Text,
           Msg.diagramResult ("data:image/svg+xml;base64," ++ env.svgBase64)]),
       true, ! env.rmOk, true, true, true⟩

/-! ### Message classification helpers -/

def isGenResult : Msg → Bool
  | .generationResult _ => true
  | _ => false

def isDiagResult : Msg → Bool
  | .diagramResult _ => true
  | _ => false

def isHB : Msg → Bool
  | .heartbeat => true
  | _ => false

/-- Either structured one-shot payload. -/
def isResultMsg (m : Msg) : Bool := isGenResult m || isDiagResult m

/-- Number of messages of a trace satisfying `p`. -/
def countP (p : Msg → Bool) (ms : List Msg) : Nat := (ms.filter p).length

/-- Number of heartbeat pings in a trace. -/
def countHB (ms : List Msg) : Nat := countP isHB ms

/-- Scan for three consecutive backticks (a markdown fence marker). -/
def hasFence (l : List Char) : Bool :=
  match l with
  | [] => false
  | _ :: rest => (decide (l.take 3 = fenceChars)) || hasFence rest

/-! ### Merge and counting lemmas -/

/-- The time-ordered merge is an interleaving: it is a permutation of the
two event lists concatenated. -/
lemma mergeEv_perm (a b : List (Nat × Msg)) : List.Perm (mergeEv a b) (a ++ b) := by
  induction a generalizing b with
  | nil => simp [mergeEv]
  | cons x xs ihx =>
    induction b with
    | nil => simp [mergeEv]
    | cons y ys ihy =>
      rw [mergeEv]
      split
      · exact (ihx (y :: ys)).cons x
      · exact (ihy.cons y).trans List.perm_middle.symm

/-- Each input of the merge occurs in the merged trace in its own order. -/
lemma left_sublist_mergeEv (a b : List (Nat × Msg)) : List.Sublist a (mergeEv a b) := by
  induction a generalizing b with
  | nil => exact List.nil_sublist _
  | cons x xs ihx =>
    induction b with
    | nil =>
      rw [mergeEv]
    | cons y ys ihy =>
      rw [mergeEv]
      split
      · exact (ihx (y :: ys)).cons₂ x
      · exact ihy.cons y

lemma countP_perm (p : Msg → Bool) {a b : List Msg} (h : List.Perm a b) :
    countP p a = countP p b := (h.filter p).length_eq

lemma countP_append (p : Msg → Bool) (a b : List Msg) :
    countP p (a ++ b) = countP p a + countP p b := by
  simp [countP, List.filter_append]

/-- A trace consisting only of relayed terminal logs has no message
satisfying a predicate that rejects every terminal log. -/
lemma countP_logEvents (p : Msg → Bool) (hp : ∀ s, p (Msg.terminalLog s) = false)
    (xs : List (Nat × String)) :
    countP p ((xs.map (fun q => (q.1, Msg.terminalLog q.2))).map Prod.snd) = 0 := by
  induction xs with
  | nil => rfl
  | cons x xs ih => simpa [countP, List.filter, hp] using ih

lemma countHB_ticks (n : Nat) :
    countHB (((List.range n).map
      (fun k => (2000 * (k + 1), Msg.heartbeat))).map Prod.snd) = n := by
  induction n with
  | zero => rfl
  | succ n ih =>
    rw [List.range_succ]
    simp only [List.map_append, List.map_map, List.filter_append, countHB,
      countP, List.length_append] at ih ⊢
    simp [isHB, ih]

/-- The heartbeat phase of duration `d` contains exactly `d / 2000` pings. -/
lemma countHB_heartbeatEvents (d : Nat) :
    countHB ((heartbeatEvents true d).map Prod.snd) = d / 2000 := by
  rw [heartbeatEvents, if_pos rfl]
  exact countHB_ticks (d / 2000)

/-! ### Fence-stripping lemmas -/

lemma stripFences_nil : stripFences [] = [] := by
  simp [stripFences]

lemma stripFences_pos (c : Char) (r : List Char)
    (h : (c :: r).take 3 = fenceChars) :
    stripFences (c :: r) = stripFences ((c :: r).drop 3) := by
  rw [stripFences, if_pos h]

lemma stripFences_neg (c : Char) (r : List Char)
    (h : ¬ (c :: r).take 3 = fenceChars) :
    stripFences (c :: r) = c :: stripFences r := by
  rw [stripFences, if_neg h]

/-- A character other than a backtick is always kept. -/
lemma stripFences_head_ne (c : Char) (r : List Char) (hc : c ≠ '`') :
    stripFences (c :: r) = c :: stripFences r := by
  apply stripFences_neg
  intro h
  rw [List.take_succ_cons, fenceChars] at h
  injection h with h1 _
  exact hc h1

/-- The output of the fence scan cannot begin with two backticks unless the
input did: removal happens at run starts, so after a kept backtick the scan
guarantees the next kept character does not extend it to a leading pair. -/
lemma take2_stripFences (r : List Char) (h : r.take 2 ≠ ['`', '`']) :
    (stripFences r).take 2 ≠ ['`', '`'] := by
  rcases r with _ | ⟨d, r2⟩
  · simp [stripFences_nil]
  · by_cases hd : d = '`'
    · subst hd
      rcases r2 with _ | ⟨e, r3⟩
      · rw [stripFences_neg '`' [] (by simp [fenceChars])]
        simp [stripFences_nil]
      · have he : e ≠ '`' := by
          intro he
          subst he
          exact h (by simp)
        have h3 : ¬ ('`' :: e :: r3).take 3 = fenceChars := by
          intro hx
          rw [List.take_succ_cons, List.take_succ_cons, fenceChars] at hx
          injection hx with _ hx2
          injection hx2 with hx21 _
          exact he hx21
        rw [stripFences_neg _ _ h3, stripFences_head_ne e r3 he]
        simp [List.take_succ_cons, he]
    · rw [stripFences_head_ne d r2 hd]
      simp [List.take_succ_cons, hd]

/-- Core property of the global fence removal: its output never contains
three consecutive backticks. -/
theorem hasFence_stripFences : ∀ l : List Char, hasFence (stripFences l) = false
  | [] => by
    rw [stripFences_nil]
    rfl
  | c :: r => by
    by_cases h3 : (c :: r).take 3 = fenceChars
    · rw [stripFences_pos c r h3]
      exact hasFence_stripFences ((c :: r).drop 3)
    · rw [stripFences_neg c r h3]
      have ih := hasFence_stripFences r
      simp only [hasFence, ih, Bool.or_false]
      rw [decide_eq_false_iff_not]
      by_cases hc : c = '`'
      · subst hc
        have h2 : r.take 2 ≠ ['`', '`'] := by
          intro hx
          apply h3
          rw [List.take_succ_cons, hx]
          rfl
        have hkeep := take2_stripFences r h2
        intro hx
        apply hkeep
        rw [List.take_succ_cons, fenceChars] at hx
        injection hx
      · intro hx
        rw [List.take_succ_cons, fenceChars] at hx
        injection hx with h1 _
        exact hc h1
termination_by l => l.length
decreasing_by
  · simp only [List.length_drop, List.length_cons]
    omega
  · simp

/-- The scan `hasFence` returns true exactly when three consecutive backticks
occur as a contiguous substring. -/
lemma hasFence_eq_true_iff (l : List Char) :
    hasFence l = true ↔ fenceChars <:+: l := by
  induction l with
  | nil => simp [hasFence, fenceChars]
  | cons c t ih =>
    simp only [hasFence, Bool.or_eq_true, decide_eq_true_eq, ih]
    rw [List.infix_cons_iff]
    constructor
    · rintro (h | h)
      · exact Or.inl ⟨(c :: t).drop 3, by rw [← h, List.take_append_drop]⟩
      · exact Or.inr h
    · rintro (h | h)
      · exact Or.inl (List.prefix_iff_eq_take.mp h).symm
      · exact Or.inr h

lemma hasFence_false_iff (l : List Char) :
    hasFence l = false ↔ ¬ fenceChars <:+: l := by
  rw [← hasFence_eq_true_iff]
  cases hasFence l <;> simp

/-- Trimming removes characters only at the two ends: the result is a
contiguous substring of the input. -/
lemma jsTrim_within (l : List Char) : jsTrim l <:+: l := by
  unfold jsTrim
  have h1 : List.IsSuffix (l.dropWhile isJsSpace) l := List.dropWhile_suffix _
  have h2 : List.IsPrefix
      (((l.dropWhile isJsSpace).reverse.dropWhile isJsSpace).reverse)
      (l.dropWhile isJsSpace) := by
    rw [← List.reverse_suffix, List.reverse_reverse]
    exact List.dropWhile_suffix _
  exact h2.isInfix.trans h1.isInfix

/-- The cleaned generation result contains no markdown fence marker. -/
theorem cleanGeneratedCode_no_fence (raw : List Char) :
    hasFence (cleanGeneratedCode raw) = false := by
  rw [hasFence_false_iff]
  intro h
  simp only [cleanGeneratedCode] at h
  have h2 := h.trans (jsTrim_within (stripFences (stripVerilogFences raw)))
  rw [← hasFence_eq_true_iff, hasFence_stripFences] at h2
  exact Bool.noConfusion h2

/-! ### Claim C7 -/

/-- C7: For every admitted generate request whose Gemini call succeeds,
exactly one `generationResult` message is sent, and its code field contains
no markdown fence marker (no occurrence of three consecutive backticks). -/
theorem generation_result_unique_fence_free (env : GenEnv) (raw : List Char)
    (h : env.geminiResult = some raw) :
    (getGeminiVerilog env).filter isGenResult =
      [Msg.generationResult (cleanGeneratedCode raw)] ∧
    hasFence (cleanGeneratedCode raw) = false := by
  constructor
  · simp [getGeminiVerilog, h, isGenResult, List.filter]
  · exact cleanGeneratedCode_no_fence raw

/-- Witness for C7: a Gemini reply wrapped in markdown fences. -/
theorem generation_result_unique_fence_free_witness :
    (getGeminiVerilog
        ⟨some (("```verilog\nmodule mux;\n```").toList)⟩).filter isGenResult =
      [Msg.generationResult
        (cleanGeneratedCode (("```verilog\nmodule mux;\n```").toList))] ∧
    hasFence (cleanGeneratedCode (("```verilog\nmodule mux;\n```").toList)) =
      false :=
  generation_result_unique_fence_free
    ⟨some (("```verilog\nmodule mux;\n```").toList)⟩
    (("```verilog\nmodule mux;\n```").toList) rfl

/-! ### More counting lemmas for the traces -/

lemma countP_ticks (p : Msg → Bool) (hp : p Msg.heartbeat = false) (n : Nat) :
    countP p (((List.range n).map
      (fun k => (2000 * (k + 1), Msg.heartbeat))).map Prod.snd) = 0 := by
  induction n with
  | zero => rfl
  | succ n ih =>
    rw [List.range_succ]
    simp only [List.map_append, List.map_map, List.filter_append, countP,
      List.length_append] at ih ⊢
    simp [hp, ih]

lemma countP_hbEvents (p : Msg → Bool) (hp : p Msg.heartbeat = false)
    (b : Bool) (d : Nat) :
    countP p ((heartbeatEvents b d).map Prod.snd) = 0 := by
  cases b
  · rfl
  · rw [heartbeatEvents, if_pos rfl]
    exact countP_ticks p hp (d / 2000)

lemma countHB_runningMsgs (env : CompileEnv) :
    countHB (runningMsgs env) = env.closeTime / 2000 := by
  have hp : List.Perm
      ((mergeEv (env.chunks.map (fun p => (p.1, Msg.terminalLog p.2)))
        (heartbeatEvents true env.closeTime)).map Prod.snd)
      (((env.chunks.map (fun p => (p.1, Msg.terminalLog p.2))) ++
        heartbeatEvents true env.closeTime).map Prod.snd) :=
    (mergeEv_perm _ _).map Prod.snd
  unfold runningMsgs countHB
  rw [countP_perm isHB hp, List.map_append, countP_append]
  rw [countP_logEvents isHB (fun s => rfl) env.chunks]
  have h2 := countHB_heartbeatEvents env.closeTime
  unfold countHB at h2
  rw [h2]
  exact Nat.zero_add _

lemma countHB_closeMsgs (env : CompileEnv) : countHB (closeMsgs env) = 0 := by
  cases hg : env.geminiOk <;>
    simp [closeMsgs, getGeminiDescription, heartbeatEvents, countHB, countP,
      List.filter, isHB, hg]

lemma countResults_runningMsgs (env : CompileEnv) :
    countP isResultMsg (runningMsgs env) = 0 := by
  unfold runningMsgs
  rw [countP_perm isResultMsg ((mergeEv_perm _ _).map Prod.snd),
    List.map_append, countP_append,
    countP_logEvents isResultMsg (fun s => rfl) env.chunks,
    countP_hbEvents isResultMsg rfl true env.closeTime]

lemma countResults_closeMsgs (env : CompileEnv) :
    countP isResultMsg (closeMsgs env) = 0 := by
  cases hg : env.geminiOk <;>
    simp [closeMsgs, getGeminiDescription, heartbeatEvents, countP,
      List.filter, isResultMsg, isGenResult, isDiagResult, hg]

/-! ### Claim C4 -/

/-- C4: The liveness ping fires once per elapsed 2-second period of the
primary compile process and no ping occurs in anything emitted from the
moment the job reaches a terminal handler (the interval is cleared first on
the close, launch-error and exception paths: the close-handler messages,
although the awaited Gemini call takes time, contain no ping); the timer
never survives a job on any path; generateDiagram and generate jobs never
run a primary process and never emit a ping at all. -/
theorem heartbeat_cadence_and_cancelled :
    (∀ env : CompileEnv, (runInSandbox env).timerCancelled = true) ∧
    (∀ env : CompileEnv, env.setupThrow = none → env.spawnFail = none →
      (runInSandbox env).msgs = runningMsgs env ++ closeMsgs env ∧
      countHB (runningMsgs env) = env.closeTime / 2000 ∧
      countHB (closeMsgs env) = 0) ∧
    (∀ (env : CompileEnv) (m : String), env.setupThrow = none →
      env.spawnFail = some m →
      (runInSandbox env).msgs =
        (heartbeatEvents true env.errTime).map Prod.snd ++
          [Msg.terminalLog (fatalSpawnText m)] ∧
      countHB [Msg.terminalLog (fatalSpawnText m)] = 0) ∧
    (∀ (env : CompileEnv) (m : String), env.setupThrow = some m →
      countHB (runInSandbox env).msgs = 0) ∧
    (∀ env : DiagEnv, countHB (runDiagramGeneration env).msgs = 0 ∧
      (runDiagramGeneration env).procLaunched = false) ∧
    (∀ env : GenEnv, countHB (getGeminiVerilog env) = 0) := by
  refine ⟨?_, ?_, ?_, ?_, ?_, ?_⟩
  · intro env
    rcases hs : env.setupThrow with _ | m
    · rcases hf : env.spawnFail with _ | m
      · simp [runInSandbox, hs, hf]
      · simp [runInSandbox, hs, hf]
    · simp [runInSandbox, hs]
  · intro env hs hf
    refine ⟨by simp [runInSandbox, hs, hf], countHB_runningMsgs env,
      countHB_closeMsgs env⟩
  · intro env m hs hf
    refine ⟨by simp [runInSandbox, hs, hf], ?_⟩
    simp [countHB, countP, List.filter, isHB]
  · intro env m hs
    simp [runInSandbox, hs, countHB, countP, List.filter, isHB]
  · intro env
    rcases hs : env.setupThrow with _ | m <;>
      simp [runDiagramGeneration, hs, countHB, countP, List.filter, isHB]
  · intro env
    rcases hg : env.geminiResult with _ | raw <;>
      simp [getGeminiVerilog, hg, countHB, countP, List.filter, isHB]

/-- A concrete compile run for the C4 witness: one output chunk, a 5-second
process, a successful 3-second Gemini call. -/
def cenvW : CompileEnv :=
  ⟨none, false, none, 0, [(1000, ("Yosys 0.9"))], 5000, 0, true, ("fine"),
    3000, true⟩

/-- A compile run whose docker spawn fails 4.5 seconds in. -/
def cenvSpawnFailW : CompileEnv :=
  ⟨none, true, some ("spawn docker ENOENT"), 4500, [], 0, 0, true, "", 0, true⟩

/-- A compile run whose body throws before the spawn. -/
def cenvThrowW : CompileEnv :=
  ⟨some ("ENOSPC"), true, none, 0, [], 0, 0, true, "", 0, true⟩

/-- Witness for C4 at concrete runs: on the normal 5-second run the timer is
cancelled, the process phase carries exactly two pings and the terminal phase
none; the spawn-failure and exception paths carry no ping after (resp. in)
their terminal messages. -/
theorem heartbeat_cadence_and_cancelled_witness :
    (runInSandbox cenvW).timerCancelled = true ∧
    countHB (runningMsgs cenvW) = 2 ∧
    countHB (closeMsgs cenvW) = 0 ∧
    countHB [Msg.terminalLog (fatalSpawnText ("spawn docker ENOENT"))] = 0 ∧
    countHB (runInSandbox cenvThrowW).msgs = 0 :=
  ⟨heartbeat_cadence_and_cancelled.1 cenvW,
   (heartbeat_cadence_and_cancelled.2.1 cenvW rfl rfl).2.1.trans (by rfl),
   (heartbeat_cadence_and_cancelled.2.1 cenvW rfl rfl).2.2,
   (heartbeat_cadence_and_cancelled.2.2.1 cenvSpawnFailW
     ("spawn docker ENOENT") rfl rfl).2,
   heartbeat_cadence_and_cancelled.2.2.2.1 cenvThrowW ("ENOSPC") rfl⟩

/-! ### Claim C5 -/

lemma getLast?_closeMsgs (env : CompileEnv) :
    ∃ s, (closeMsgs env).getLast? = some (Msg.terminalLog s) := by
  cases hg : env.geminiOk
  · exact ⟨geminiDescErrText,
      by simp [closeMsgs, getGeminiDescription, heartbeatEvents, hg]⟩
  · exact ⟨geminiFooterText,
      by simp [closeMsgs, getGeminiDescription, heartbeatEvents, hg]⟩

/-- C5: Every job trace is emitted in generation order (process chunks occur
in the trace in emission order, as a sublist), a compile job never carries a
structured result payload, and the last message of every job trace is a
terminal-status log — so any result payload strictly precedes the final
status message. -/
theorem job_messages_end_with_status :
    (∀ env : CompileEnv,
      ∃ s, (runInSandbox env).msgs.getLast? = some (Msg.terminalLog s)) ∧
    (∀ env : CompileEnv, countP isResultMsg (runInSandbox env).msgs = 0) ∧
    (∀ env : CompileEnv, env.setupThrow = none → env.spawnFail = none →
      List.Sublist (env.chunks.map (fun p => Msg.terminalLog p.2))
        (runInSandbox env).msgs) ∧
    (∀ env : GenEnv,
      ∃ s, (getGeminiVerilog env).getLast? = some (Msg.terminalLog s)) ∧
    (∀ env : DiagEnv,
      ∃ s, (runDiagramGeneration env).msgs.getLast? =
        some (Msg.terminalLog s)) := by
  refine ⟨?_, ?_, ?_, ?_, ?_⟩
  · intro env
    rcases hs : env.setupThrow with _ | m
    · rcases hf : env.spawnFail with _ | m
      · obtain ⟨s, hlast⟩ := getLast?_closeMsgs env
        refine ⟨s, ?_⟩
        simp only [runInSandbox, hs, hf]
        rw [List.getLast?_append, hlast]
        rfl
      · exact ⟨fatalSpawnText m,
          by simp [runInSandbox, hs, hf, List.getLast?_append]⟩
    · exact ⟨fatalServerText m, by simp [runInSandbox, hs]⟩
  · intro env
    rcases hs : env.setupThrow with _ | m
    · rcases hf : env.spawnFail with _ | m
      · simp only [runInSandbox, hs, hf]
        rw [countP_append, countResults_runningMsgs env,
          countResults_closeMsgs env]
      · simp only [runInSandbox, hs, hf]
        rw [countP_append, countP_hbEvents isResultMsg rfl true env.errTime]
        simp [countP, List.filter, isResultMsg, isGenResult, isDiagResult]
    · simp [runInSandbox, hs, countP, List.filter, isResultMsg, isGenResult,
        isDiagResult]
  · intro env hs hf
    simp only [runInSandbox, hs, hf]
    refine List.Sublist.trans ?_ (List.sublist_append_left _ _)
    unfold runningMsgs
    have h := (left_sublist_mergeEv
      (env.chunks.map (fun p => (p.1, Msg.terminalLog p.2)))
      (heartbeatEvents true env.closeTime)).map Prod.snd
    rw [List.map_map] at h
    exact h
  · intro env
    rcases hg : env.geminiResult with _ | raw
    · exact ⟨genErrText, by simp [getGeminiVerilog, hg]⟩
    · exact ⟨genSuccessText, by simp [getGeminiVerilog, hg]⟩
  · intro env
    rcases hs : env.setupThrow with _ | m
    · exact ⟨diagFatalText dockaerText, by simp [runDiagramGeneration, hs]⟩
    · exact ⟨diagFatalText m, by simp [runDiagramGeneration, hs]⟩

/-- Witness for C5: the chunk-order clause at the concrete run `cenvW`. -/
theorem job_messages_end_with_status_witness :
    List.Sublist (cenvW.chunks.map (fun p => Msg.terminalLog p.2))
      (runInSandbox cenvW).msgs :=
  job_messages_end_with_status.2.2.1 cenvW rfl rfl

/-! ### Claims C2 and C3 -/

/-- A generateDiagram run, with the image reference corrected, whose yosys
stage exits with code 1 while `fs.rm` itself would succeed. -/
def diagFailEnvW : DiagFixedEnv :=
  ⟨none, false, false, [("ERROR: syntax error")], 1, false, "", 0, "", true⟩

/-- C2: with the intended image reference, a generateDiagram job whose yosys
stage exits nonzero sends its terminal failure banner but leaves the scratch
directory in place — the close handler returns without calling `fs.rm` (lines
310-313) — even though removal would have succeeded.  (In the literal code
this path is unreachable: every diagram job throws on the undefined
`DOCKAER_IMAGE` before any spawn, and that catch path does clean up.) -/
theorem diagram_failure_scratch_dir_survives :
    (runDiagramGenerationFixed diagFailEnvW).dirCreated = true ∧
    (runDiagramGenerationFixed diagFailEnvW).dirExistsAfter = true ∧
    (runDiagramGenerationFixed diagFailEnvW).msgs.getLast? =
      some (Msg.terminalLog diagYosysFailText) := by
  refine ⟨?_, ?_, ?_⟩ <;>
    simp [runDiagramGenerationFixed, diagFailEnvW]

/-- C3: in the literal code the first-stage process is never launched (every
diagram job throws on the undefined `DOCKAER_IMAGE` before `spawn`), so the
nonzero-exit condition of the claim can never arise; with the image
reference corrected, a nonzero first-stage exit indeed never launches
netlistsvg and never sends a `diagramResult`, but the job does NOT proceed
to cleanup: the scratch directory survives. -/
theorem diagram_short_circuit_without_cleanup :
    (∀ env : DiagEnv, (runDiagramGeneration env).procLaunched = false ∧
      (runDiagramGeneration env).proc2Launched = false ∧
      countP isDiagResult (runDiagramGeneration env).msgs = 0) ∧
    ((runDiagramGenerationFixed diagFailEnvW).procLaunched = true ∧
      (runDiagramGenerationFixed diagFailEnvW).proc2Launched = false ∧
      countP isDiagResult (runDiagramGenerationFixed diagFailEnvW).msgs = 0 ∧
      (runDiagramGenerationFixed diagFailEnvW).dirExistsAfter = true) := by
  constructor
  · intro env
    rcases hs : env.setupThrow with _ | m <;>
      simp [runDiagramGeneration, hs, countP, List.filter, isDiagResult]
  · refine ⟨?_, ?_, ?_, ?_⟩ <;>
      simp [runDiagramGenerationFixed, diagFailEnvW, countP, List.filter,
        isDiagResult]

end DinosaurEDA
